import Mathlib

/-!
Shallow embedding of `src/lambda/lambda_function.py` of the games-catalogue
repository: a serverless HTTP handler over a single DynamoDB table keyed by
(platform, game_id).

Modelling conventions:
* The DynamoDB table is a `List GameRecord` in insertion order; `put_item`
  replaces the record with the same composite key when one exists, otherwise
  appends; `delete_item` filters by key; `update_item` with `SET status`
  upserts (DynamoDB semantics: a missing key creates a stub item holding only
  the key attributes and the SET attribute).
* A parsed form body (`parse_qs` result, first value per key) is an
  association list `Body`; `body.get k` is `getV b k : Option String`.
* Python truthiness of an optional string (`not all([...])`) is `truthy`.
* `str(uuid.uuid4())` and `datetime.now().isoformat()` are nondeterministic
  inputs of the handler, passed as explicit `freshId`/`now` parameters;
  freshness of the uuid is a hypothesis where a claim needs it.
* Jinja rendering is kept structural: a `Rendered` value records the template
  name and the keyword variables passed to `render`; the concrete HTML string
  is outside the embedding (the templates directory is not part of the
  handler file).  A raised `ValueError` is `Except.error msg`; the top-level
  `except` clause of `lambda_handler` is the `Except.error` match arm.
-/

/-- One item of the games-catalogue table.  `platform` is the partition key
and `game_id` the sort key; all other attributes are optional (Python may
store `None`, and the stub created by `update_item` on a missing key has none
of them). -/
structure GameRecord where
  platform : String
  game_id : String
  game_name : Option String
  genre : Option String
  year : Option String
  status : Option String
  added_date : Option String
deriving DecidableEq, Repr

abbrev Table := List GameRecord

/-- A parsed request body: the dict `{k: v[0] for k, v in parse_qs(...)}`. -/
abbrev Body := List (String × String)

/-- Lookup `body.get(k)` on the parsed dict. -/
def getV (b : Body) (k : String) : Option String :=
  (b.find? (fun kv => kv.fst == k)).map (fun kv => kv.snd)

/-- Python truthiness of an optional string: `None` and `""` are falsy. -/
def truthy : Option String → Bool
  | none => false
  | some s => s != ""

/-- Composite-key match used by every keyed DynamoDB operation. -/
def sameKey (p id : String) (r : GameRecord) : Bool :=
  r.platform == p && r.game_id == id

/-- Embedding of `table.put_item(Item=item)`: replace the record with the same composite
key when present, otherwise append. -/
def put_item (t : Table) (item : GameRecord) : Table :=
  if t.any (sameKey item.platform item.game_id) then
    t.map (fun r => if sameKey item.platform item.game_id r then item else r)
  else
    t ++ [item]

/-- Embedding of `table.delete_item(Key=...)`: unconditional delete by composite key. -/
def delete_item (t : Table) (p id : String) : Table :=
  t.filter (fun r => !(sameKey p id r))

/-- Embedding of `table.update_item(Key=..., UpdateExpression="SET #s = :owned")`:
set `status` on all records with the key; a missing key upserts a stub item
holding only the key attributes and the status. -/
def update_item_set_owned (t : Table) (p id : String) : Table :=
  if t.any (sameKey p id) then
    t.map (fun r => if sameKey p id r then { r with status := some "owned" } else r)
  else
    t ++ [⟨p, id, none, none, none, some "owned", none⟩]

/-- Filter `attribute_not_exists(#s) OR #s = :owned`. -/
def isOwnedRec (r : GameRecord) : Bool :=
  r.status == none || r.status == some "owned"

/-- Source function `get_all_games_data`: scan filtered to status absent-or-owned. -/
def get_all_games_data (t : Table) : Table :=
  t.filter isOwnedRec

/-- Source function `get_games_by_platform_data(platform)`: query on the partition key,
filtered to status absent-or-owned. -/
def get_games_by_platform_data (platform : String) (t : Table) : Table :=
  t.filter (fun r => r.platform == platform && isOwnedRec r)

/-- Source function `get_wishlist_data`: scan filtered to status = wishlist. -/
def get_wishlist_data (t : Table) : Table :=
  t.filter (fun r => r.status == some "wishlist")

/-- Source function `add_game(body)`.  Here `game_id` is the generated uuid and `now` the
timestamp, passed explicitly. -/
def add_game (game_id now : String) (body : Body) (t : Table) :
    Except String Table :=
  let platform := getV body "platform"
  let game_name := getV body "game_name"
  let genre := getV body "genre"
  let year := getV body "year"
  if !(truthy platform && truthy game_name) then
    Except.error "Missing required fields: platform, game_name"
  else
    Except.ok (put_item t
      ⟨platform.getD "", game_id, game_name, genre, year, some "owned", some now⟩)

/-- Source function `add_to_wishlist(body)`: identical to `add_game` except the stored
status is "wishlist". -/
def add_to_wishlist (game_id now : String) (body : Body) (t : Table) :
    Except String Table :=
  let platform := getV body "platform"
  let game_name := getV body "game_name"
  let genre := getV body "genre"
  let year := getV body "year"
  if !(truthy platform && truthy game_name) then
    Except.error "Missing required fields: platform, game_name"
  else
    Except.ok (put_item t
      ⟨platform.getD "", game_id, game_name, genre, year, some "wishlist", some now⟩)

/-- Source function `delete_game(body)`. -/
def delete_game (body : Body) (t : Table) : Except String Table :=
  let platform := getV body "platform"
  let game_id := getV body "game_id"
  if !(truthy platform && truthy game_id) then
    Except.error "Missing required fields: platform, game_id"
  else
    Except.ok (delete_item t (platform.getD "") (game_id.getD ""))

/-- Source function `delete_from_wishlist(body)`. -/
def delete_from_wishlist (body : Body) (t : Table) : Except String Table :=
  let platform := getV body "platform"
  let game_id := getV body "game_id"
  if !(truthy platform && truthy game_id) then
    Except.error "Missing required fields: platform, game_id"
  else
    Except.ok (delete_item t (platform.getD "") (game_id.getD ""))

/-- Source function `mark_as_purchased(body)`. -/
def mark_as_purchased (body : Body) (t : Table) : Except String Table :=
  let platform := getV body "platform"
  let game_id := getV body "game_id"
  if !(truthy platform && truthy game_id) then
    Except.error "Missing required fields: platform, game_id"
  else
    Except.ok (update_item_set_owned t (platform.getD "") (game_id.getD ""))

/-- The keyword variables a `render_html(template_name, **kwargs)` call
passes to Jinja; a variable not supplied by the call stays at its empty
default. -/
structure Rendered where
  template : String
  games : List GameRecord
  wishlist : List GameRecord
  platforms : List String
  selected_platform : Option String
  status_code : Option Nat
  message : Option String
deriving DecidableEq, Repr

/-- Response body: a rendered page, or the empty string of a redirect. -/
inductive RBody where
  | page (r : Rendered)
  | empty
deriving DecidableEq, Repr

/-- The response envelope `{statusCode, headers, body}`. -/
structure Response where
  statusCode : Nat
  headers : List (String × String)
  body : RBody
deriving DecidableEq, Repr

/-- Source function `render_html`: always statusCode 200 with an HTML content type. -/
def render_html (r : Rendered) : Response :=
  ⟨200, [("Content-Type", "text/html; charset=utf-8")], RBody.page r⟩

/-- Source function `redirect_response(location)`: 303 with a Location header, empty body. -/
def redirect_response (location : String) : Response :=
  ⟨303, [("Location", location)], RBody.empty⟩

/-- The inbound event: either the Function-URL shape (nested requestContext
with method and path) or the flat shape with `httpMethod`/`path`, plus the
parsed form body. -/
structure Event where
  requestContextHttp : Option (String × String)
  httpMethod : Option String
  path : Option String
  body : Body

/-- Extract (method, path) from whichever envelope shape is present. -/
def normalizeEvent (e : Event) : String × String :=
  match e.requestContextHttp with
  | some mp => mp
  | none => (e.httpMethod.getD "GET", e.path.getD "/")

/-- Python `path.startswith(pre)`, on code points. -/
def strStartsWith (s pre : String) : Bool :=
  pre.data.isPrefixOf s.data

/-- Python `path[3:]` and friends: drop the first `n` code points. -/
def strDrop (s : String) (n : Nat) : String :=
  ⟨s.data.drop n⟩

/-- Python `path.lstrip("/")`: drop leading slashes. -/
def strLstripSlash (s : String) : String :=
  ⟨s.data.dropWhile (fun c => c == '/')⟩

/-- Lexicographic strict comparison of code-point lists: the order Python
string comparison and `sorted` use. -/
def charListLt : List Char → List Char → Bool
  | [], [] => false
  | [], _ :: _ => true
  | _ :: _, [] => false
  | a :: as, b :: bs =>
    if a < b then true
    else if b < a then false
    else charListLt as bs

/-- Python `a < b` on strings. -/
def strLt (a b : String) : Bool :=
  charListLt a.data b.data

/-- Strip the fixed "/gc" proxy routing piece and default an empty path
to "/". -/
def stripGc (p : String) : String :=
  let p1 := if strStartsWith p "/gc" then strDrop p 3 else p
  if p1 == "" then "/" else p1

/-- Insert a string into an ascending duplicate-free list, keeping it so:
the inductive step of Python `sorted(set(...))`. -/
def insertSortedU (x : String) : List String → List String
  | [] => [x]
  | y :: ys =>
    if x = y then y :: ys
    else if strLt x y then x :: y :: ys
    else y :: insertSortedU x ys

/-- Python `sorted(set(xs))` for strings: ascending, duplicate-free. -/
def pySortedSet (xs : List String) : List String :=
  xs.foldr insertSortedU []

/-- The 500 error page produced by the top-level `except` clause. -/
def errorPage (msg : String) : Response :=
  render_html ⟨"error.html", [], [], [], none, some 500, some msg⟩

/-- The 404 page of the route fallthrough. -/
def notFoundPage : Response :=
  render_html ⟨"error.html", [], [], [], none, some 404, some "Not found"⟩

/-- Source function `lambda_handler(event, context)`.  Returns the response envelope and the
table state after the invocation; `freshId` and `now` stand for the uuid and
timestamp drawn during the call.  An `Except.error` arm is the Python
exception propagating to the top-level handler, which renders the 500 page
and leaves the table as the failing operation left it (every operation
raises before writing). -/
def lambda_handler (freshId now : String) (e : Event) (t : Table) :
    Response × Table :=
  let mp := normalizeEvent e
  let http_method := mp.fst
  let path := stripGc mp.snd
  if http_method == "GET" then
    if path == "/" then
      let games := get_all_games_data t
      (render_html ⟨"index.html", games, [],
        pySortedSet (games.map (fun g => g.platform)), none, none, none⟩, t)
    else if path == "/wishlist" then
      let wishlist := get_wishlist_data t
      (render_html ⟨"wishlist.html", [], wishlist,
        pySortedSet (wishlist.map (fun g => g.platform)), none, none, none⟩, t)
    else
      let platform := strLstripSlash path
      let games := get_games_by_platform_data platform t
      (render_html ⟨"index.html", games, [],
        pySortedSet (games.map (fun g => g.platform)), some platform, none, none⟩, t)
  else if http_method == "POST" then
    if path == "/add" then
      match add_game freshId now e.body t with
      | Except.error msg => (errorPage msg, t)
      | Except.ok t1 =>
        let platform := (getV e.body "platform").getD ""
        (redirect_response (if platform != "" then "/gc/" ++ platform else "/gc"), t1)
    else if path == "/wishlist/add" then
      match add_to_wishlist freshId now e.body t with
      | Except.error msg => (errorPage msg, t)
      | Except.ok t1 => (redirect_response "/gc/wishlist", t1)
    else if path == "/wishlist/purchased" then
      match mark_as_purchased e.body t with
      | Except.error msg => (errorPage msg, t)
      | Except.ok t1 => (redirect_response "/gc/wishlist", t1)
    else
      (notFoundPage, t)
  else if http_method == "DELETE" then
    if path == "/delete" then
      match delete_game e.body t with
      | Except.error msg => (errorPage msg, t)
      | Except.ok t1 =>
        let platform := (getV e.body "platform").getD ""
        (redirect_response (if platform != "" then "/" ++ platform else "/"), t1)
    else if path == "/wishlist/delete" then
      match delete_from_wishlist e.body t with
      | Except.error msg => (errorPage msg, t)
      | Except.ok t1 => (redirect_response "/wishlist", t1)
    else
      (notFoundPage, t)
  else
    (notFoundPage, t)

/-- A record with the composite key (p, id) occurs in the list. -/
def keyIn (l : List GameRecord) (p id : String) : Bool :=
  l.any (sameKey p id)

/-- Every record with key (p, id), when present at all, has status
"wishlist": the state of a wishlist entry between creation and purchase or
deletion. -/
def wishOrAbsent (t : Table) (p id : String) : Prop :=
  ∀ r ∈ t, r.platform = p → r.game_id = id → r.status = some "wishlist"

/-- One table-mutating request, with the uuid and timestamp it draws. -/
inductive Op where
  | addGame (freshId now : String) (body : Body)
  | addWishlist (freshId now : String) (body : Body)
  | deleteGame (body : Body)
  | deleteWishlist (body : Body)
  | markPurchased (body : Body)

/-- Effect of one request on the table; a raised validation error leaves
the table unchanged. -/
def applyOp (t : Table) : Op → Table
  | Op.addGame freshId now body =>
    match add_game freshId now body t with
    | Except.ok t1 => t1
    | Except.error _ => t
  | Op.addWishlist freshId now body =>
    match add_to_wishlist freshId now body t with
    | Except.ok t1 => t1
    | Except.error _ => t
  | Op.deleteGame body =>
    match delete_game body t with
    | Except.ok t1 => t1
    | Except.error _ => t
  | Op.deleteWishlist body =>
    match delete_from_wishlist body t with
    | Except.ok t1 => t1
    | Except.error _ => t
  | Op.markPurchased body =>
    match mark_as_purchased body t with
    | Except.ok t1 => t1
    | Except.error _ => t

/-- Effect of a request sequence. -/
def applyOps (t : Table) (ops : List Op) : Table :=
  ops.foldl applyOp t

/-- The operation is not `mark_as_purchased` for the exact key (p, id), and
any uuid it draws is not `id` (uuid freshness). -/
def avoidsKey (p id : String) : Op → Prop
  | Op.addGame freshId _ _ => freshId ≠ id
  | Op.addWishlist freshId _ _ => freshId ≠ id
  | Op.deleteGame _ => True
  | Op.deleteWishlist _ => True
  | Op.markPurchased body =>
    ¬(getV body "platform" = some p ∧ getV body "game_id" = some id)




/-! Ordering lemmas: `strLt` is exactly the standard strict order on
strings, and `pySortedSet` returns an ascending duplicate-free list with the
same members as its input. -/

theorem charListLt_iff_lex (l m : List Char) :
    charListLt l m = true ↔ List.Lex (· < ·) l m := by
  induction l generalizing m with
  | nil =>
    cases m with
    | nil =>
      exact iff_of_false (by simp [charListLt]) (fun h => by cases h)
    | cons y ys =>
      exact iff_of_true rfl List.Lex.nil
  | cons x xs ih =>
    cases m with
    | nil =>
      exact iff_of_false (by simp [charListLt]) (fun h => by cases h)
    | cons y ys =>
      rcases lt_trichotomy x y with h | h | h
      · exact iff_of_true (by simp [charListLt, h]) (List.Lex.rel h)
      · subst h
        have hred : charListLt (x :: xs) (x :: ys) = charListLt xs ys := by
          simp [charListLt, lt_irrefl]
        rw [hred, ih]
        constructor
        · exact fun hl => List.Lex.cons hl
        · intro hl
          cases hl with
          | cons hl => exact hl
          | rel hr => exact absurd hr (lt_irrefl x)
      · refine iff_of_false (by simp [charListLt, h, asymm h]) ?_
        intro hl
        cases hl with
        | cons hl => exact absurd h (lt_irrefl _)
        | rel hr => exact absurd hr (asymm h)

theorem strLt_iff (a b : String) : strLt a b = true ↔ a < b := by
  rw [String.lt_iff_toList_lt]
  exact charListLt_iff_lex a.data b.data

theorem mem_insertSortedU (x z : String) (l : List String) :
    z ∈ insertSortedU x l ↔ z = x ∨ z ∈ l := by
  induction l with
  | nil => simp [insertSortedU]
  | cons y ys ih =>
    by_cases hxy : x = y
    · subst hxy
      have hred : insertSortedU x (x :: ys) = x :: ys := by
        simp [insertSortedU]
      rw [hred]
      simp only [List.mem_cons]
      tauto
    · by_cases hlt : strLt x y = true
      · simp only [insertSortedU, if_neg hxy, if_pos hlt, List.mem_cons]
      · simp only [insertSortedU, if_neg hxy, if_neg hlt, List.mem_cons, ih]
        tauto

theorem sorted_insertSortedU (x : String) (l : List String)
    (h : l.Pairwise (· < ·)) : (insertSortedU x l).Pairwise (· < ·) := by
  induction l with
  | nil => simp [insertSortedU]
  | cons y ys ih =>
    rcases List.pairwise_cons.mp h with ⟨hy, hys⟩
    by_cases hxy : x = y
    · simpa [insertSortedU, hxy] using h
    · by_cases hlt : strLt x y = true
      · have hxlty : x < y := (strLt_iff x y).mp hlt
        simp only [insertSortedU, if_neg hxy, if_pos hlt]
        refine List.pairwise_cons.mpr ⟨?_, h⟩
        intro z hz
        rcases List.mem_cons.mp hz with hz | hz
        · exact hz ▸ hxlty
        · exact lt_trans hxlty (hy z hz)
      · have hylt : y < x := by
          rcases lt_trichotomy x y with h1 | h1 | h1
          · exact absurd ((strLt_iff x y).mpr h1) hlt
          · exact absurd h1 hxy
          · exact h1
        simp only [insertSortedU, if_neg hxy, if_neg hlt]
        refine List.pairwise_cons.mpr ⟨?_, ih hys⟩
        intro z hz
        rcases (mem_insertSortedU x z ys).mp hz with hz | hz
        · exact hz ▸ hylt
        · exact hy z hz

theorem sorted_pySortedSet (xs : List String) :
    (pySortedSet xs).Pairwise (· < ·) := by
  induction xs with
  | nil => simp [pySortedSet]
  | cons x xs ih => exact sorted_insertSortedU x (pySortedSet xs) ih

theorem mem_pySortedSet (z : String) (xs : List String) :
    z ∈ pySortedSet xs ↔ z ∈ xs := by
  induction xs with
  | nil => simp [pySortedSet]
  | cons x xs ih =>
    show z ∈ insertSortedU x (pySortedSet xs) ↔ _
    rw [mem_insertSortedU, ih, List.mem_cons]


/-! Reduction lemmas for the data-access functions under the validation
guards, and for key membership in the listings. -/

theorem sameKey_iff {p id : String} {r : GameRecord} :
    sameKey p id r = true ↔ r.platform = p ∧ r.game_id = id := by
  simp [sameKey]

theorem truthy_eq_true {s : String} (h : s ≠ "") : truthy (some s) = true := by
  simp [truthy, h]

theorem put_item_fresh (t : Table) (item : GameRecord)
    (h : ∀ r ∈ t, r.game_id ≠ item.game_id) :
    put_item t item = t ++ [item] := by
  have hc : ¬(t.any (sameKey item.platform item.game_id) = true) := by
    intro hc
    rcases List.any_eq_true.mp hc with ⟨r, hrt, hk⟩
    exact h r hrt (sameKey_iff.mp hk).2
  simp only [put_item, if_neg hc]

theorem add_game_eq_ok (p name id now : String) (body : Body) (t : Table)
    (hp : getV body "platform" = some p) (hn : getV body "game_name" = some name)
    (hpne : p ≠ "") (hnne : name ≠ "") :
    add_game id now body t = Except.ok (put_item t
      ⟨p, id, some name, getV body "genre", getV body "year", some "owned", some now⟩) := by
  simp [add_game, hp, hn, truthy_eq_true hpne, truthy_eq_true hnne]

theorem add_to_wishlist_eq_ok (p name id now : String) (body : Body) (t : Table)
    (hp : getV body "platform" = some p) (hn : getV body "game_name" = some name)
    (hpne : p ≠ "") (hnne : name ≠ "") :
    add_to_wishlist id now body t = Except.ok (put_item t
      ⟨p, id, some name, getV body "genre", getV body "year", some "wishlist", some now⟩) := by
  simp [add_to_wishlist, hp, hn, truthy_eq_true hpne, truthy_eq_true hnne]

theorem delete_game_eq_ok (p id : String) (body : Body) (t : Table)
    (hp : getV body "platform" = some p) (hi : getV body "game_id" = some id)
    (hpne : p ≠ "") (hine : id ≠ "") :
    delete_game body t = Except.ok (delete_item t p id) := by
  simp [delete_game, hp, hi, truthy_eq_true hpne, truthy_eq_true hine]

theorem delete_from_wishlist_eq_ok (p id : String) (body : Body) (t : Table)
    (hp : getV body "platform" = some p) (hi : getV body "game_id" = some id)
    (hpne : p ≠ "") (hine : id ≠ "") :
    delete_from_wishlist body t = Except.ok (delete_item t p id) := by
  simp [delete_from_wishlist, hp, hi, truthy_eq_true hpne, truthy_eq_true hine]

theorem mark_as_purchased_eq_ok (p id : String) (body : Body) (t : Table)
    (hp : getV body "platform" = some p) (hi : getV body "game_id" = some id)
    (hpne : p ≠ "") (hine : id ≠ "") :
    mark_as_purchased body t = Except.ok (update_item_set_owned t p id) := by
  simp [mark_as_purchased, hp, hi, truthy_eq_true hpne, truthy_eq_true hine]

/-- C1: with non-empty platform and game_name in the body and a fresh
non-empty generated id, `add_game` succeeds, and the by-platform owned
listing afterwards is the previous listing plus exactly the one new record,
whose status is "owned" and whose game_id is the non-empty generated id,
distinct from every game_id already in the table. -/
theorem C1_add_then_list (p name id now : String) (body : Body) (t : Table)
    (hp : getV body "platform" = some p) (hn : getV body "game_name" = some name)
    (hpne : p ≠ "") (hnne : name ≠ "") (hidne : id ≠ "")
    (hfresh : ∀ r ∈ t, r.game_id ≠ id) :
    add_game id now body t = Except.ok
      (t ++ [⟨p, id, some name, getV body "genre", getV body "year", some "owned", some now⟩]) ∧
    get_games_by_platform_data p
        (t ++ [⟨p, id, some name, getV body "genre", getV body "year", some "owned", some now⟩]) =
      get_games_by_platform_data p t ++
        [⟨p, id, some name, getV body "genre", getV body "year", some "owned", some now⟩] ∧
    (⟨p, id, some name, getV body "genre", getV body "year", some "owned", some now⟩ :
      GameRecord).status = some "owned" ∧
    id ≠ "" ∧ (∀ r ∈ t, r.game_id ≠ id) := by
  refine ⟨?_, ?_, rfl, hidne, hfresh⟩
  · rw [add_game_eq_ok p name id now body t hp hn hpne hnne,
      put_item_fresh t _ (fun r hr => hfresh r hr)]
  · simp [get_games_by_platform_data, List.filter_append, isOwnedRec]

/-- Witness for C1 at a concrete input. -/
theorem C1_witness :
    add_game "u1" "2024-01-01" [("platform", "SNES"), ("game_name", "Zelda")] [] =
      Except.ok [⟨"SNES", "u1", some "Zelda", none, none, some "owned", some "2024-01-01"⟩] ∧
    get_games_by_platform_data "SNES"
        [⟨"SNES", "u1", some "Zelda", none, none, some "owned", some "2024-01-01"⟩] =
      [⟨"SNES", "u1", some "Zelda", none, none, some "owned", some "2024-01-01"⟩] :=
  ⟨(C1_add_then_list "SNES" "Zelda" "u1" "2024-01-01"
      [("platform", "SNES"), ("game_name", "Zelda")] []
      (by decide) (by decide) (by decide) (by decide) (by decide) (by decide)).1,
   (C1_add_then_list "SNES" "Zelda" "u1" "2024-01-01"
      [("platform", "SNES"), ("game_name", "Zelda")] []
      (by decide) (by decide) (by decide) (by decide) (by decide) (by decide)).2.1⟩

/-! Machinery for the wishlist lifecycle: a record whose status is
"wishlist" is invisible to the owned listings, and stays so under every
operation that is not a purchase of its exact key. -/

theorem wishOrAbsent_not_in_owned (t : Table) (p id : String)
    (h : wishOrAbsent t p id) :
    keyIn (get_all_games_data t) p id = false ∧
    keyIn (get_games_by_platform_data p t) p id = false := by
  constructor
  · simp only [keyIn, List.any_eq_false]
    intro r hr hk
    rcases sameKey_iff.mp hk with ⟨hpl, hid⟩
    rcases List.mem_filter.mp hr with ⟨hrt, ho⟩
    have hst := h r hrt hpl hid
    simp [isOwnedRec, hst] at ho
  · simp only [keyIn, List.any_eq_false]
    intro r hr hk
    rcases sameKey_iff.mp hk with ⟨hpl, hid⟩
    rcases List.mem_filter.mp hr with ⟨hrt, ho⟩
    have hst := h r hrt hpl hid
    simp [isOwnedRec, hst] at ho

theorem wishOrAbsent_put (t : Table) (p id : String) (item : GameRecord)
    (h : wishOrAbsent t p id) (hid : item.game_id ≠ id) :
    wishOrAbsent (put_item t item) p id := by
  intro r hr hpl hgid
  unfold put_item at hr
  split at hr
  · rcases List.mem_map.mp hr with ⟨r0, hr0, heq⟩
    by_cases hk : sameKey item.platform item.game_id r0 = true
    · rw [if_pos hk] at heq
      subst heq
      exact absurd hgid hid
    · rw [if_neg hk] at heq
      subst heq
      exact h r0 hr0 hpl hgid
  · rcases List.mem_append.mp hr with hr | hr
    · exact h r hr hpl hgid
    · rcases List.mem_singleton.mp hr with rfl
      exact absurd hgid hid

theorem wishOrAbsent_delete (t : Table) (p id p1 id1 : String)
    (h : wishOrAbsent t p id) :
    wishOrAbsent (delete_item t p1 id1) p id := by
  intro r hr hpl hgid
  exact h r (List.mem_filter.mp hr).1 hpl hgid

theorem wishOrAbsent_update (t : Table) (p id p1 id1 : String)
    (h : wishOrAbsent t p id) (hne : ¬(p1 = p ∧ id1 = id)) :
    wishOrAbsent (update_item_set_owned t p1 id1) p id := by
  intro r hr hpl hgid
  unfold update_item_set_owned at hr
  split at hr
  · rcases List.mem_map.mp hr with ⟨r0, hr0, heq⟩
    by_cases hk : sameKey p1 id1 r0 = true
    · rw [if_pos hk] at heq
      rcases sameKey_iff.mp hk with ⟨hp0, hi0⟩
      subst heq
      exact absurd ⟨by rw [← hp0]; exact hpl, by rw [← hi0]; exact hgid⟩ hne
    · rw [if_neg hk] at heq
      subst heq
      exact h r0 hr0 hpl hgid
  · rcases List.mem_append.mp hr with hr | hr
    · exact h r hr hpl hgid
    · rcases List.mem_singleton.mp hr with rfl
      exact absurd ⟨hpl, hgid⟩ hne

theorem add_game_ok_shape (fid now : String) (body : Body) (t t1 : Table)
    (h : add_game fid now body t = Except.ok t1) :
    t1 = put_item t ⟨(getV body "platform").getD "", fid, getV body "game_name",
      getV body "genre", getV body "year", some "owned", some now⟩ := by
  simp only [add_game] at h
  split at h
  · exact Except.noConfusion h
  · injection h with h
    exact h.symm

theorem add_to_wishlist_ok_shape (fid now : String) (body : Body) (t t1 : Table)
    (h : add_to_wishlist fid now body t = Except.ok t1) :
    t1 = put_item t ⟨(getV body "platform").getD "", fid, getV body "game_name",
      getV body "genre", getV body "year", some "wishlist", some now⟩ := by
  simp only [add_to_wishlist] at h
  split at h
  · exact Except.noConfusion h
  · injection h with h
    exact h.symm

theorem delete_game_ok_shape (body : Body) (t t1 : Table)
    (h : delete_game body t = Except.ok t1) :
    t1 = delete_item t ((getV body "platform").getD "") ((getV body "game_id").getD "") := by
  simp only [delete_game] at h
  split at h
  · exact Except.noConfusion h
  · injection h with h
    exact h.symm

theorem delete_from_wishlist_ok_shape (body : Body) (t t1 : Table)
    (h : delete_from_wishlist body t = Except.ok t1) :
    t1 = delete_item t ((getV body "platform").getD "") ((getV body "game_id").getD "") := by
  simp only [delete_from_wishlist] at h
  split at h
  · exact Except.noConfusion h
  · injection h with h
    exact h.symm

theorem mark_as_purchased_ok_shape (body : Body) (t t1 : Table)
    (h : mark_as_purchased body t = Except.ok t1) :
    t1 = update_item_set_owned t ((getV body "platform").getD "")
      ((getV body "game_id").getD "") := by
  simp only [mark_as_purchased] at h
  split at h
  · exact Except.noConfusion h
  · injection h with h
    exact h.symm

theorem getV_getD_eq (body : Body) (k v : String) (hv : v ≠ "")
    (h : (getV body k).getD "" = v) : getV body k = some v := by
  cases hg : getV body k with
  | none => rw [hg] at h; exact absurd h.symm hv
  | some w => rw [hg] at h; rw [Option.getD_some] at h; rw [h]

theorem wishOrAbsent_applyOp (p id : String) (hpne : p ≠ "") (hine : id ≠ "")
    (t : Table) (op : Op) (h : wishOrAbsent t p id) (hav : avoidsKey p id op) :
    wishOrAbsent (applyOp t op) p id := by
  cases op with
  | addGame fid now body =>
    simp only [applyOp]
    cases hadd : add_game fid now body t with
    | error msg => exact h
    | ok t1 =>
      rw [add_game_ok_shape fid now body t t1 hadd]
      exact wishOrAbsent_put t p id _ h hav
  | addWishlist fid now body =>
    simp only [applyOp]
    cases hadd : add_to_wishlist fid now body t with
    | error msg => exact h
    | ok t1 =>
      rw [add_to_wishlist_ok_shape fid now body t t1 hadd]
      exact wishOrAbsent_put t p id _ h hav
  | deleteGame body =>
    simp only [applyOp]
    cases hdel : delete_game body t with
    | error msg => exact h
    | ok t1 =>
      rw [delete_game_ok_shape body t t1 hdel]
      exact wishOrAbsent_delete t p id _ _ h
  | deleteWishlist body =>
    simp only [applyOp]
    cases hdel : delete_from_wishlist body t with
    | error msg => exact h
    | ok t1 =>
      rw [delete_from_wishlist_ok_shape body t t1 hdel]
      exact wishOrAbsent_delete t p id _ _ h
  | markPurchased body =>
    simp only [applyOp]
    cases hmk : mark_as_purchased body t with
    | error msg => exact h
    | ok t1 =>
      rw [mark_as_purchased_ok_shape body t t1 hmk]
      refine wishOrAbsent_update t p id _ _ h ?_
      rintro ⟨hp1, hi1⟩
      exact hav ⟨getV_getD_eq body "platform" p hpne hp1,
        getV_getD_eq body "game_id" id hine hi1⟩

theorem wishOrAbsent_applyOps (p id : String) (hpne : p ≠ "") (hine : id ≠ "")
    (t : Table) (ops : List Op) (h : wishOrAbsent t p id)
    (hav : ∀ op ∈ ops, avoidsKey p id op) :
    wishOrAbsent (applyOps t ops) p id := by
  induction ops generalizing t with
  | nil => exact h
  | cons op ops ih =>
    exact ih (applyOp t op)
      (wishOrAbsent_applyOp p id hpne hine t op h (hav op (List.mem_cons_self op ops)))
      (fun o ho => hav o (List.mem_cons_of_mem op ho))

theorem keyIn_after_update (t : Table) (p id : String) :
    keyIn (get_all_games_data (update_item_set_owned t p id)) p id = true ∧
    keyIn (get_games_by_platform_data p (update_item_set_owned t p id)) p id = true ∧
    keyIn (get_wishlist_data (update_item_set_owned t p id)) p id = false := by
  unfold update_item_set_owned
  by_cases hany : t.any (sameKey p id) = true
  · rw [if_pos hany]
    rcases List.any_eq_true.mp hany with ⟨r, hrt, hk⟩
    have hmem : ({ r with status := some "owned" } : GameRecord) ∈
        t.map (fun r => if sameKey p id r then { r with status := some "owned" } else r) :=
      List.mem_map.mpr ⟨r, hrt, by rw [if_pos hk]⟩
    have hk2 : sameKey p id ({ r with status := some "owned" } : GameRecord) = true := hk
    refine ⟨?_, ?_, ?_⟩
    · exact List.any_eq_true.mpr ⟨_, List.mem_filter.mpr ⟨hmem, rfl⟩, hk2⟩
    · refine List.any_eq_true.mpr ⟨_, List.mem_filter.mpr ⟨hmem, ?_⟩, hk2⟩
      rcases sameKey_iff.mp hk with ⟨hpl, _⟩
      simp [isOwnedRec, hpl]
    · simp only [keyIn, List.any_eq_false]
      intro x hx hkx
      rcases List.mem_filter.mp hx with ⟨hxm, hxw⟩
      rcases List.mem_map.mp hxm with ⟨r0, hr0, heq⟩
      by_cases hk0 : sameKey p id r0 = true
      · rw [if_pos hk0] at heq
        rw [← heq] at hxw
        simp at hxw
      · rw [if_neg hk0] at heq
        rw [← heq] at hkx
        exact hk0 hkx
  · rw [if_neg hany]
    have hstub : (⟨p, id, none, none, none, some "owned", none⟩ : GameRecord) ∈
        t ++ [⟨p, id, none, none, none, some "owned", none⟩] :=
      List.mem_append.mpr (Or.inr (List.mem_singleton.mpr rfl))
    have hkstub : sameKey p id (⟨p, id, none, none, none, some "owned", none⟩ : GameRecord) = true := by
      simp [sameKey]
    refine ⟨?_, ?_, ?_⟩
    · exact List.any_eq_true.mpr ⟨_, List.mem_filter.mpr ⟨hstub, rfl⟩, hkstub⟩
    · refine List.any_eq_true.mpr ⟨_, List.mem_filter.mpr ⟨hstub, by simp [isOwnedRec]⟩, hkstub⟩
    · simp only [keyIn, List.any_eq_false]
      intro x hx hkx
      rcases List.mem_filter.mp hx with ⟨hxm, hxw⟩
      rcases List.mem_append.mp hxm with hxm | hxm
      · exact (List.any_eq_false.mp (Bool.eq_false_iff.mpr hany) x hxm) hkx
      · rcases List.mem_singleton.mp hxm with rfl
        simp at hxw

/-- C2: a record created by `add_to_wishlist` is absent from both owned
listings and present in the wishlist listing; it stays out of the owned
listings across any sequence of operations that never purchases its exact
(platform, game_id) (and whose generated uuids are fresh); and whenever
`mark_as_purchased` succeeds on that exact key, the record appears in the
owned listing and no longer in the wishlist listing. -/
theorem C2_wishlist_lifecycle (p name id now : String) (body : Body) (t t1 : Table)
    (hp : getV body "platform" = some p) (hn : getV body "game_name" = some name)
    (hpne : p ≠ "") (hnne : name ≠ "") (hidne : id ≠ "")
    (hfresh : ∀ r ∈ t, r.game_id ≠ id)
    (hadd : add_to_wishlist id now body t = Except.ok t1) :
    keyIn (get_all_games_data t1) p id = false ∧
    keyIn (get_games_by_platform_data p t1) p id = false ∧
    keyIn (get_wishlist_data t1) p id = true ∧
    (∀ ops : List Op, (∀ op ∈ ops, avoidsKey p id op) →
      keyIn (get_all_games_data (applyOps t1 ops)) p id = false ∧
      keyIn (get_games_by_platform_data p (applyOps t1 ops)) p id = false) ∧
    (∀ (t2 t3 : Table) (body2 : Body),
      getV body2 "platform" = some p → getV body2 "game_id" = some id →
      mark_as_purchased body2 t2 = Except.ok t3 →
      keyIn (get_all_games_data t3) p id = true ∧
      keyIn (get_wishlist_data t3) p id = false) := by
  have ht1 : t1 = t ++
      [⟨p, id, some name, getV body "genre", getV body "year", some "wishlist", some now⟩] := by
    have hsh := add_to_wishlist_ok_shape id now body t t1 hadd
    rw [hp, Option.getD_some, hn] at hsh
    rw [hsh]
    exact put_item_fresh t _ (fun r hr => hfresh r hr)
  have hwa : wishOrAbsent t1 p id := by
    intro r hr hpl hgid
    rw [ht1] at hr
    rcases List.mem_append.mp hr with hr | hr
    · exact absurd hgid (hfresh r hr)
    · rcases List.mem_singleton.mp hr with rfl
      rfl
  have howned := wishOrAbsent_not_in_owned t1 p id hwa
  refine ⟨howned.1, howned.2, ?_, ?_, ?_⟩
  · rw [ht1]
    refine List.any_eq_true.mpr ⟨_, List.mem_filter.mpr
      ⟨List.mem_append.mpr (Or.inr (List.mem_singleton.mpr rfl)), rfl⟩, ?_⟩
    simp [sameKey]
  · intro ops hops
    exact wishOrAbsent_not_in_owned _ p id
      (wishOrAbsent_applyOps p id hpne hidne t1 ops hwa hops)
  · intro t2 t3 body2 hp2 hi2 hmk
    have hsh := mark_as_purchased_ok_shape body2 t2 t3 hmk
    rw [hp2, hi2, Option.getD_some, Option.getD_some] at hsh
    rw [hsh]
    exact ⟨(keyIn_after_update t2 p id).1, (keyIn_after_update t2 p id).2.2⟩

/-- Witness for C2 at a concrete input: a wishlist entry for (SNES, Zelda)
with uuid "u1", then a purchase of ("SNES", "u1"). -/
theorem C2_witness :
    keyIn (get_wishlist_data
      [⟨"SNES", "u1", some "Zelda", none, none, some "wishlist", some "d1"⟩]) "SNES" "u1" = true ∧
    keyIn (get_all_games_data
      [⟨"SNES", "u1", some "Zelda", none, none, some "wishlist", some "d1"⟩]) "SNES" "u1" = false ∧
    keyIn (get_all_games_data
      [⟨"SNES", "u1", some "Zelda", none, none, some "owned", some "d1"⟩]) "SNES" "u1" = true ∧
    keyIn (get_wishlist_data
      [⟨"SNES", "u1", some "Zelda", none, none, some "owned", some "d1"⟩]) "SNES" "u1" = false := by
  have h := C2_wishlist_lifecycle "SNES" "Zelda" "u1" "d1"
    [("platform", "SNES"), ("game_name", "Zelda")] []
    [⟨"SNES", "u1", some "Zelda", none, none, some "wishlist", some "d1"⟩]
    (by decide) (by decide) (by decide) (by decide) (by decide) (by decide) (by rfl)
  have h5 := h.2.2.2.2
    [⟨"SNES", "u1", some "Zelda", none, none, some "wishlist", some "d1"⟩]
    [⟨"SNES", "u1", some "Zelda", none, none, some "owned", some "d1"⟩]
    [("platform", "SNES"), ("game_id", "u1")]
    (by decide) (by decide) (by rfl)
  exact ⟨h.2.2.1, h.1, h5.1, h5.2⟩

/-- C8: `delete_game` and `delete_from_wishlist` are extensionally equal:
same validation, same error, identical delete by (platform, game_id), and
identical resulting table states on every input. -/
theorem C8_delete_functions_equal :
    ∀ (body : Body) (t : Table), delete_game body t = delete_from_wishlist body t :=
  fun _ _ => rfl

theorem keyIn_filter_delete (t : Table) (p id : String) (pred : GameRecord → Bool) :
    keyIn ((delete_item t p id).filter pred) p id = false := by
  simp only [keyIn, List.any_eq_false]
  intro x hx hk
  have hxd : x ∈ delete_item t p id := (List.mem_filter.mp hx).1
  have hxn : (!(sameKey p id x)) = true := (List.mem_filter.mp hxd).2
  rw [hk] at hxn
  exact Bool.noConfusion hxn

/-- C4: with non-empty platform and game_id in the body, `delete_game` (and
`delete_from_wishlist`) succeeds and removes every record with that
composite key, so that none of the three listings contains the key
afterwards; and when no record with the key exists the delete succeeds and
leaves the table unchanged. -/
theorem C4_delete_removes (p id : String) (body : Body) (t : Table)
    (hp : getV body "platform" = some p) (hi : getV body "game_id" = some id)
    (hpne : p ≠ "") (hine : id ≠ "") :
    delete_game body t = Except.ok (delete_item t p id) ∧
    delete_from_wishlist body t = Except.ok (delete_item t p id) ∧
    keyIn (get_all_games_data (delete_item t p id)) p id = false ∧
    keyIn (get_games_by_platform_data p (delete_item t p id)) p id = false ∧
    keyIn (get_wishlist_data (delete_item t p id)) p id = false ∧
    (keyIn t p id = false → delete_item t p id = t) := by
  refine ⟨delete_game_eq_ok p id body t hp hi hpne hine,
    delete_from_wishlist_eq_ok p id body t hp hi hpne hine,
    keyIn_filter_delete t p id _, keyIn_filter_delete t p id _,
    keyIn_filter_delete t p id _, ?_⟩
  intro habsent
  simp only [keyIn] at habsent
  apply List.filter_eq_self.mpr
  intro r hr
  have hf := List.any_eq_false.mp habsent r hr
  cases hsk : sameKey p id r with
  | false => rfl
  | true => exact absurd hsk hf

/-- Witness for C4 at a concrete input: deleting the one record of a
one-record table empties every listing, and deleting from the empty table
is a no-op. -/
theorem C4_witness :
    delete_game [("platform", "SNES"), ("game_id", "u1")]
        [⟨"SNES", "u1", some "Zelda", none, none, some "owned", some "d1"⟩] =
      Except.ok (delete_item
        [⟨"SNES", "u1", some "Zelda", none, none, some "owned", some "d1"⟩] "SNES" "u1") ∧
    keyIn (get_all_games_data (delete_item
      [⟨"SNES", "u1", some "Zelda", none, none, some "owned", some "d1"⟩] "SNES" "u1"))
      "SNES" "u1" = false ∧
    delete_item ([] : Table) "SNES" "u1" = [] := by
  have h := C4_delete_removes "SNES" "u1" [("platform", "SNES"), ("game_id", "u1")]
    [⟨"SNES", "u1", some "Zelda", none, none, some "owned", some "d1"⟩]
    (by decide) (by decide) (by decide) (by decide)
  have h0 := C4_delete_removes "SNES" "u1" [("platform", "SNES"), ("game_id", "u1")]
    ([] : Table) (by decide) (by decide) (by decide) (by decide)
  exact ⟨h.1, h.2.2.1, h0.2.2.2.2.2 (by decide)⟩

/-- C10: when the body names a key absent from the table,
`mark_as_purchased` appends a stub record holding only the key attributes
and status "owned" (no game_name, genre, year or added_date), and that stub
appears in the owned listings afterwards. -/
theorem C10_purchase_unknown_key (p id : String) (body : Body) (t : Table)
    (hp : getV body "platform" = some p) (hi : getV body "game_id" = some id)
    (hpne : p ≠ "") (hine : id ≠ "") (habsent : keyIn t p id = false) :
    mark_as_purchased body t =
      Except.ok (t ++ [⟨p, id, none, none, none, some "owned", none⟩]) ∧
    keyIn (get_all_games_data (t ++ [⟨p, id, none, none, none, some "owned", none⟩]))
      p id = true ∧
    keyIn (get_games_by_platform_data p
      (t ++ [⟨p, id, none, none, none, some "owned", none⟩])) p id = true := by
  simp only [keyIn] at habsent
  have hupd : update_item_set_owned t p id =
      t ++ [⟨p, id, none, none, none, some "owned", none⟩] := by
    unfold update_item_set_owned
    rw [if_neg (fun hc => by rw [hc] at habsent; exact Bool.noConfusion habsent)]
  have hlist := keyIn_after_update t p id
  rw [hupd] at hlist
  exact ⟨by rw [mark_as_purchased_eq_ok p id body t hp hi hpne hine, hupd],
    hlist.1, hlist.2.1⟩

/-- Witness for C10 at a concrete input: purchasing the unknown key
("SNES", "g9") on the empty table creates the stub record. -/
theorem C10_witness :
    mark_as_purchased [("platform", "SNES"), ("game_id", "g9")] [] =
      Except.ok [⟨"SNES", "g9", none, none, none, some "owned", none⟩] ∧
    keyIn (get_all_games_data [⟨"SNES", "g9", none, none, none, some "owned", none⟩])
      "SNES" "g9" = true := by
  have h := C10_purchase_unknown_key "SNES" "g9"
    [("platform", "SNES"), ("game_id", "g9")] []
    (by decide) (by decide) (by decide) (by decide) (by decide)
  exact ⟨h.1, h.2.1⟩

/-! Route-level reduction lemmas: the handler on each concrete
(method, path) pair, with the body and table left symbolic. -/

theorem lambda_handler_get_root (freshId now : String) (body : Body) (t : Table) :
    lambda_handler freshId now ⟨none, some "GET", some "/", body⟩ t =
      (render_html ⟨"index.html", get_all_games_data t, [],
        pySortedSet ((get_all_games_data t).map (fun g => g.platform)),
        none, none, none⟩, t) := rfl

theorem lambda_handler_post_add (freshId now : String) (body : Body) (t : Table) :
    lambda_handler freshId now ⟨none, some "POST", some "/add", body⟩ t =
      match add_game freshId now body t with
      | Except.error msg => (errorPage msg, t)
      | Except.ok t1 =>
        (redirect_response (if (getV body "platform").getD "" != ""
          then "/gc/" ++ (getV body "platform").getD "" else "/gc"), t1) := rfl

theorem lambda_handler_post_wishlist_add (freshId now : String) (body : Body) (t : Table) :
    lambda_handler freshId now ⟨none, some "POST", some "/wishlist/add", body⟩ t =
      match add_to_wishlist freshId now body t with
      | Except.error msg => (errorPage msg, t)
      | Except.ok t1 => (redirect_response "/gc/wishlist", t1) := rfl

theorem lambda_handler_delete (freshId now : String) (body : Body) (t : Table) :
    lambda_handler freshId now ⟨none, some "DELETE", some "/delete", body⟩ t =
      match delete_game body t with
      | Except.error msg => (errorPage msg, t)
      | Except.ok t1 =>
        (redirect_response (if (getV body "platform").getD "" != ""
          then "/" ++ (getV body "platform").getD "" else "/"), t1) := rfl

theorem lambda_handler_wishlist_delete (freshId now : String) (body : Body) (t : Table) :
    lambda_handler freshId now ⟨none, some "DELETE", some "/wishlist/delete", body⟩ t =
      match delete_from_wishlist body t with
      | Except.error msg => (errorPage msg, t)
      | Except.ok t1 => (redirect_response "/wishlist", t1) := rfl

/-- C9: every response envelope `lambda_handler` returns has statusCode 200
or 303; `render_html` unconditionally produces 200, so the "Not found" page
and the caught-exception error page travel in a 200 envelope, the 404/500
values living only in the template variables. -/
theorem C9_envelope_status (freshId now : String) (e : Event) (t : Table) :
    ((lambda_handler freshId now e t).1.statusCode = 200 ∨
      (lambda_handler freshId now e t).1.statusCode = 303) ∧
    (∀ r : Rendered, (render_html r).statusCode = 200) ∧
    notFoundPage.statusCode = 200 ∧ notFoundPage.body = RBody.page
      ⟨"error.html", [], [], [], none, some 404, some "Not found"⟩ ∧
    (∀ msg, (errorPage msg).statusCode = 200 ∧ (errorPage msg).body = RBody.page
      ⟨"error.html", [], [], [], none, some 500, some msg⟩) := by
  refine ⟨?_, fun r => rfl, rfl, rfl, fun msg => ⟨rfl, rfl⟩⟩
  simp only [lambda_handler]
  repeat' split
  all_goals simp [render_html, redirect_response, errorPage, notFoundPage]

/-- C3 counterexample: a create request with game_name but no platform does
raise the missing-fields error, but the response envelope the handler
returns carries statusCode 200, not 500 — the 500 value lives only in the
template variables of the rendered error page. -/
theorem C3_counterexample :
    (lambda_handler "u1" "d1" ⟨none, some "POST", some "/wishlist/add",
        [("game_name", "Zelda")]⟩ []).1.statusCode = 200 ∧
    (lambda_handler "u1" "d1" ⟨none, some "POST", some "/wishlist/add",
        [("game_name", "Zelda")]⟩ []).1.statusCode ≠ 500 ∧
    (lambda_handler "u1" "d1" ⟨none, some "POST", some "/wishlist/add",
        [("game_name", "Zelda")]⟩ []).1.body = RBody.page
      ⟨"error.html", [], [], [], none, some 500,
        some "Missing required fields: platform, game_name"⟩ := by
  exact ⟨by decide, by decide, by decide⟩

/-- C3 amended: on POST /add and /wishlist/add with platform or game_name
missing or empty, the operation raises exactly the literal missing-fields
`ValueError`, the top-level handler catches it, and the response is the
error page rendered with status_code variable 500 and that literal message —
delivered in an envelope whose statusCode is 200. -/
theorem C3_missing_fields (freshId now : String) (body : Body) (t : Table)
    (h : (truthy (getV body "platform") && truthy (getV body "game_name")) = false) :
    add_game freshId now body t =
      Except.error "Missing required fields: platform, game_name" ∧
    add_to_wishlist freshId now body t =
      Except.error "Missing required fields: platform, game_name" ∧
    lambda_handler freshId now ⟨none, some "POST", some "/add", body⟩ t =
      (render_html ⟨"error.html", [], [], [], none, some 500,
        some "Missing required fields: platform, game_name"⟩, t) ∧
    lambda_handler freshId now ⟨none, some "POST", some "/wishlist/add", body⟩ t =
      (render_html ⟨"error.html", [], [], [], none, some 500,
        some "Missing required fields: platform, game_name"⟩, t) ∧
    (lambda_handler freshId now ⟨none, some "POST", some "/add", body⟩ t).1.statusCode
      = 200 := by
  have hg : add_game freshId now body t =
      Except.error "Missing required fields: platform, game_name" := by
    simp [add_game, h]
  have hw : add_to_wishlist freshId now body t =
      Except.error "Missing required fields: platform, game_name" := by
    simp [add_to_wishlist, h]
  refine ⟨hg, hw, ?_, ?_, ?_⟩
  · rw [lambda_handler_post_add, hg]
    rfl
  · rw [lambda_handler_post_wishlist_add, hw]
    rfl
  · rw [lambda_handler_post_add, hg]
    rfl

/-- Witness for the amended C3 at a concrete input. -/
theorem C3_witness :
    add_game "u1" "d1" [("game_name", "Zelda")] [] =
      Except.error "Missing required fields: platform, game_name" ∧
    lambda_handler "u1" "d1" ⟨none, some "POST", some "/add", [("game_name", "Zelda")]⟩ [] =
      (render_html ⟨"error.html", [], [], [], none, some 500,
        some "Missing required fields: platform, game_name"⟩, []) := by
  have h := C3_missing_fields "u1" "d1" [("game_name", "Zelda")] [] (by decide)
  exact ⟨h.1, h.2.2.1⟩

/-- C5 counterexample: POST /add with platform missing does not produce a
redirect at all — `add_game` raises first, so the handler returns the 500
error page (statusCode 200), never the "/gc" redirect the claim names. -/
theorem C5_counterexample :
    (lambda_handler "u1" "d1" ⟨none, some "POST", some "/add",
        [("game_name", "Zelda")]⟩ []).1 ≠ redirect_response "/gc" ∧
    (lambda_handler "u1" "d1" ⟨none, some "POST", some "/add",
        [("game_name", "Zelda")]⟩ []).1.statusCode ≠ 303 ∧
    (lambda_handler "u1" "d1" ⟨none, some "POST", some "/add",
        [("game_name", "Zelda")]⟩ []).1 =
      render_html ⟨"error.html", [], [], [], none, some 500,
        some "Missing required fields: platform, game_name"⟩ := by
  exact ⟨by decide, by decide, by decide⟩

/-- C5 amended: POST /add with non-empty platform and game_name returns a
303 redirect whose Location is the prefix-qualified "/gc/" ++ platform;
when platform is missing or empty the validation error fires first, so the
handler returns the error page instead — the "/gc" fallback redirect of the
source line is unreachable. -/
theorem C5_add_redirect (freshId now p name : String) (body : Body) (t : Table)
    (hp : getV body "platform" = some p) (hn : getV body "game_name" = some name)
    (hpne : p ≠ "") (hnne : name ≠ "") :
    lambda_handler freshId now ⟨none, some "POST", some "/add", body⟩ t =
      (redirect_response ("/gc/" ++ p), put_item t
        ⟨p, freshId, some name, getV body "genre", getV body "year",
          some "owned", some now⟩) ∧
    (redirect_response ("/gc/" ++ p)).statusCode = 303 ∧
    (∀ (body2 : Body) (t2 : Table), truthy (getV body2 "platform") = false →
      lambda_handler freshId now ⟨none, some "POST", some "/add", body2⟩ t2 =
        (render_html ⟨"error.html", [], [], [], none, some 500,
          some "Missing required fields: platform, game_name"⟩, t2)) := by
  refine ⟨?_, rfl, ?_⟩
  · rw [lambda_handler_post_add,
      add_game_eq_ok p name freshId now body t hp hn hpne hnne]
    rw [hp]
    simp [hpne]
  · intro body2 t2 h2
    have hg : add_game freshId now body2 t2 =
        Except.error "Missing required fields: platform, game_name" := by
      simp [add_game, h2]
    rw [lambda_handler_post_add, hg]
    rfl

/-- Witness for the amended C5 at a concrete input: platform=SNES,
game_name=Zelda redirects to "/gc/SNES". -/
theorem C5_witness :
    lambda_handler "u1" "d1" ⟨none, some "POST", some "/add",
        [("platform", "SNES"), ("game_name", "Zelda")]⟩ [] =
      (redirect_response "/gc/SNES",
        [⟨"SNES", "u1", some "Zelda", none, none, some "owned", some "d1"⟩]) := by
  have h := C5_add_redirect "u1" "d1" "SNES" "Zelda"
    [("platform", "SNES"), ("game_name", "Zelda")] []
    (by decide) (by decide) (by decide) (by decide)
  exact h.1

/-- C6: DELETE /delete with a valid body (non-empty platform and game_id)
returns a 303 redirect whose Location is "/" ++ platform, without the "/gc"
routing piece the POST redirects prepend; DELETE /wishlist/delete redirects
to "/wishlist".  (With a valid body the platform is present, so the "/"
fallback of the source line cannot fire.) -/
theorem C6_delete_redirects (freshId now p id : String) (body : Body) (t : Table)
    (hp : getV body "platform" = some p) (hi : getV body "game_id" = some id)
    (hpne : p ≠ "") (hine : id ≠ "") :
    lambda_handler freshId now ⟨none, some "DELETE", some "/delete", body⟩ t =
      (redirect_response ("/" ++ p), delete_item t p id) ∧
    lambda_handler freshId now ⟨none, some "DELETE", some "/wishlist/delete", body⟩ t =
      (redirect_response "/wishlist", delete_item t p id) ∧
    ("/" ++ p) ≠ ("/gc/" ++ p) := by
  refine ⟨?_, ?_, ?_⟩
  · rw [lambda_handler_delete, delete_game_eq_ok p id body t hp hi hpne hine]
    rw [hp]
    simp [hpne]
  · rw [lambda_handler_wishlist_delete,
      delete_from_wishlist_eq_ok p id body t hp hi hpne hine]
  · intro hc
    have h2 := congrArg String.length hc
    rw [String.length_append, String.length_append] at h2
    have h1 : "/".length = 1 := rfl
    have h4 : "/gc/".length = 4 := rfl
    rw [h1, h4] at h2
    omega

/-- Witness for C6 at a concrete input. -/
theorem C6_witness :
    lambda_handler "u1" "d1" ⟨none, some "DELETE", some "/delete",
        [("platform", "SNES"), ("game_id", "u1")]⟩
        [⟨"SNES", "u1", some "Zelda", none, none, some "owned", some "d0"⟩] =
      (redirect_response "/SNES", []) ∧
    lambda_handler "u1" "d1" ⟨none, some "DELETE", some "/wishlist/delete",
        [("platform", "SNES"), ("game_id", "u1")]⟩
        [⟨"SNES", "u1", some "Zelda", none, none, some "owned", some "d0"⟩] =
      (redirect_response "/wishlist", []) := by
  have h := C6_delete_redirects "u1" "d1" "SNES" "u1"
    [("platform", "SNES"), ("game_id", "u1")]
    [⟨"SNES", "u1", some "Zelda", none, none, some "owned", some "d0"⟩]
    (by decide) (by decide) (by decide) (by decide)
  exact ⟨h.1, h.2.1⟩

/-- C7: GET "/" renders index.html with the full owned listing and with
`platforms` equal to Python sorted(set(...)) of the listed platform fields —
an ascending, duplicate-free list with exactly the platforms of the listed
games; concretely, with one owned game each on "SNES" and "PS5" both come
back and platforms is exactly ["PS5", "SNES"]. -/
theorem C7_platforms_sorted (freshId now : String) (t : Table) :
    lambda_handler freshId now ⟨none, some "GET", some "/", []⟩ t =
      (render_html ⟨"index.html", get_all_games_data t, [],
        pySortedSet ((get_all_games_data t).map (fun g => g.platform)),
        none, none, none⟩, t) ∧
    (pySortedSet ((get_all_games_data t).map (fun g => g.platform))).Pairwise (· < ·) ∧
    (∀ x, x ∈ pySortedSet ((get_all_games_data t).map (fun g => g.platform)) ↔
      x ∈ (get_all_games_data t).map (fun g => g.platform)) ∧
    (lambda_handler freshId now ⟨none, some "GET", some "/", []⟩
        [⟨"SNES", "u1", some "Zelda", none, none, some "owned", some "d1"⟩,
         ⟨"PS5", "u2", some "Horizon", none, none, some "owned", some "d2"⟩]).1 =
      render_html ⟨"index.html",
        [⟨"SNES", "u1", some "Zelda", none, none, some "owned", some "d1"⟩,
         ⟨"PS5", "u2", some "Horizon", none, none, some "owned", some "d2"⟩], [],
        ["PS5", "SNES"], none, none, none⟩ := by
  exact ⟨rfl, sorted_pySortedSet _, fun x => mem_pySortedSet x _, rfl⟩
